import Mathlib

set_option maxRecDepth 8192

/-!
Verification of the VKING host/plugin runtime layer: shutdown coordination
(`src/Engine/Signals/Signals.cpp` and the legacy copy in
`src/src/Shared/src/Signals.cpp`), the logging indirection layer
(`src/src/Engine/Logging/LoggerTemplates.hpp`), and the platform/backend
selector (`src/src/Engine/Config/ConfigFns.cpp`).

The C++ state (static globals) is embedded as explicit state records; each
C++ function becomes a Lean function on that state.  Machine integers that
matter for control flow (`uint16_t` scores) are `Nat` with the explicit
sentinel `UINT16_MAX = 65535`; `const char *` parameters that may be null
are `Option String`.
-/

namespace VKING.Shutdown

/-- The `VKING::Shutdown::Reason` enumeration from
`src/src/Engine/Signals/Signals.hpp` (identical in the legacy header). -/
inductive Reason
  | REASON_USER_REQUEST
  | REASON_USER_RESTART
  | REASON_INVOLUNTARY_RESTART
  | REASON_SIGTERM
  | REASON_SIGINT
  | REASON_SIGBREAK
  | REASON_FATAL_ERROR
  | REASON_UNKNOWN
  | REASON_SIG_UNHANDLED
  | REASON_NONE
deriving DecidableEq, Repr, BEq

/-- The `VKING::Shutdown::Info` struct: reason plus message. -/
structure Info where
  reason : Reason
  message : String
deriving DecidableEq, Repr

/-- The static globals of `src/Engine/Signals/Signals.cpp` (namespace
`VKING::Shutdown::detail`): the signal-safe pair
(`s_ShutdownRequestedSignalSafe`, `s_RequestReasonSignalSafe`), the
thread-safe pair (`s_ShutdownRequestedThreadSafe`,
`s_RequestReasonThreadSafe`) and the mutex-guarded `s_Message`. -/
structure State where
  sShutdownRequestedSignalSafe : Bool
  sRequestReasonSignalSafe : Reason
  sShutdownRequestedThreadSafe : Bool
  sRequestReasonThreadSafe : Reason
  sMessage : String
deriving DecidableEq, Repr

/-- The static initializers of the five globals. -/
def initialState : State :=
  { sShutdownRequestedSignalSafe := false
  , sRequestReasonSignalSafe := Reason.REASON_NONE
  , sShutdownRequestedThreadSafe := false
  , sRequestReasonThreadSafe := Reason.REASON_NONE
  , sMessage := "" }

/-- `VKING::Shutdown::request(Reason, const char*)`
(`src/Engine/Signals/Signals.cpp:93-106`): compare-exchange the
thread-path flag from false to true; on failure return (first request
wins); on success store the reason and then, under the mutex, copy the
message (empty if the pointer was null). -/
def request (reason : Reason) (message : Option String) (s : State) : State :=
  if s.sShutdownRequestedThreadSafe then s
  else
    { s with
      sShutdownRequestedThreadSafe := true
    , sRequestReasonThreadSafe := reason
    , sMessage := message.getD "" }

/-- A sequence of `request` calls applied in order (no intervening
`clearRequest`). -/
def requestSeq (calls : List (Reason × Option String)) (s : State) : State :=
  calls.foldl (fun t c => request c.1 c.2 t) s

/-- `VKING::Shutdown::isRequested()` (`src/Engine/Signals/Signals.cpp:108-112`). -/
def isRequested (s : State) : Bool :=
  s.sShutdownRequestedThreadSafe || s.sShutdownRequestedSignalSafe

/-- `VKING::Shutdown::restartRequested()`
(`src/Engine/Signals/Signals.cpp:114-136`). -/
def restartRequested (s : State) : Bool :=
  if !isRequested s then false
  else if s.sShutdownRequestedSignalSafe then false
  else if s.sShutdownRequestedThreadSafe then
    if s.sRequestReasonThreadSafe == Reason.REASON_USER_RESTART ||
       s.sRequestReasonThreadSafe == Reason.REASON_INVOLUNTARY_RESTART then true
    else false
  else false

/-- The fixed per-reason-code message built in the signal branch of
`getReason()` (`src/Engine/Signals/Signals.cpp:151-159`). -/
def signalPathMessage (r : Reason) : String :=
  match r with
  | Reason.REASON_SIGINT => "[SIGINT] Interrupt Request Received. Reason: SIGINT"
  | Reason.REASON_SIGTERM => "[SIGTERM] Interrupted Request. Reason: SIGTERM"
  | _ => "[UNKNOWN] Unknown Reason. Reason: UNKNOWN"

/-- The diagnostic returned by `getReason()` when nothing was requested
(`src/Engine/Signals/Signals.cpp:180-184`). -/
def noRequestDiagnostic : String :=
  "VKING has no clue what happened! VKING::Shutdown::getReason() was called, but there is no reason for a shutdown. Either the caller did not think to check whether they should call this function, or they prematurely cleared it, or a cosmic ray hit your ram. COOL!"

/-- `VKING::Shutdown::getReason()` (`src/Engine/Signals/Signals.cpp:138-185`),
instrumented with a boolean recording whether the call acquired
`s_RequestReasonMutex` (only the thread-path branch takes the
`lock_guard`). -/
def getReasonAcq (s : State) : Info × Bool :=
  if s.sShutdownRequestedSignalSafe then
    ({ reason := s.sRequestReasonSignalSafe
     , message := signalPathMessage s.sRequestReasonSignalSafe }, false)
  else if s.sShutdownRequestedThreadSafe then
    ({ reason := s.sRequestReasonThreadSafe, message := s.sMessage }, true)
  else
    ({ reason := Reason.REASON_NONE, message := noRequestDiagnostic }, false)

/-- `VKING::Shutdown::getReason()`: the returned `Info`. -/
def getReason (s : State) : Info := (getReasonAcq s).1

/-- `VKING::Shutdown::clearRequest()` (`src/Engine/Signals/Signals.cpp:187-208`):
resets both flags and reasons to false/`REASON_NONE` and clears the message. -/
def clearRequest (_s : State) : State :=
  { sShutdownRequestedSignalSafe := false
  , sRequestReasonSignalSafe := Reason.REASON_NONE
  , sShutdownRequestedThreadSafe := false
  , sRequestReasonThreadSafe := Reason.REASON_NONE
  , sMessage := "" }

/-- Program counter for the individual stores performed by one execution of
the thread-path `request(reason, message)`
(`src/Engine/Signals/Signals.cpp:93-106`).  The source order is: (1) the
compare-exchange on `s_ShutdownRequestedThreadSafe`, (2) the store to
`s_RequestReasonThreadSafe`, (3) the mutex-guarded assignment to
`s_Message`. -/
inductive ReqPC
  | atStart
  | flagSet
  | reasonStored
  | finished
deriving DecidableEq, Repr

/-- One store of `request(r, m)` as a step relation on (globals, pc), in
exactly the order the source performs them. -/
inductive RequestStep (r : Reason) (m : Option String) :
    State × ReqPC → State × ReqPC → Prop
  | casWins (s : State) (h : s.sShutdownRequestedThreadSafe = false) :
      RequestStep r m (s, ReqPC.atStart)
        ({ s with sShutdownRequestedThreadSafe := true }, ReqPC.flagSet)
  | casLoses (s : State) (h : s.sShutdownRequestedThreadSafe = true) :
      RequestStep r m (s, ReqPC.atStart) (s, ReqPC.finished)
  | storeReason (s : State) :
      RequestStep r m (s, ReqPC.flagSet)
        ({ s with sRequestReasonThreadSafe := r }, ReqPC.reasonStored)
  | storeMessage (s : State) :
      RequestStep r m (s, ReqPC.reasonStored)
        ({ s with sMessage := m.getD "" }, ReqPC.finished)

/-- States reachable while a single `request(r, m)` call runs from the
idle initial state. -/
inductive RequestReachable (r : Reason) (m : Option String) :
    State × ReqPC → Prop
  | start : RequestReachable r m (initialState, ReqPC.atStart)
  | step {a b : State × ReqPC} :
      RequestReachable r m a → RequestStep r m a b → RequestReachable r m b

end VKING.Shutdown

namespace VKING.Shutdown.Legacy

/-- The static globals of the legacy implementation
`src/src/Shared/src/Signals.cpp:40-45`: a single flag, a single reason and
the fixed `char s_MessageBuf[MAX_MESSAGE_LENGTH]` (modelled as the string
of characters up to the first NUL). -/
structure State where
  sMessageBuf : String
  sRequestReason : Reason
  sShutdownRequested : Bool
deriving DecidableEq, Repr

/-- `MAX_MESSAGE_LENGTH = 100` from `src/src/Shared/src/Signals.cpp:41`. -/
def MAX_MESSAGE_LENGTH : Nat := 100

/-- The static initializers of the legacy globals. -/
def initialState : State :=
  { sMessageBuf := ""
  , sRequestReason := Reason.REASON_NONE
  , sShutdownRequested := false }

/-- Legacy `VKING::Shutdown::request` (`src/src/Shared/src/Signals.cpp:71-94`):
unconditionally copies the message into the bounded buffer (truncated to
`MAX_MESSAGE_LENGTH - 1` characters, byte-for-byte in the source), stores
the reason, and raises the flag — every call overwrites, the last one in
wins. -/
def request (reason : Reason) (message : Option String) (_s : State) : State :=
  { sMessageBuf :=
      match message with
      | some msg => msg.take (MAX_MESSAGE_LENGTH - 1)
      | none => ""
  , sRequestReason := reason
  , sShutdownRequested := true }

/-- Legacy `VKING::Shutdown::getReason` (`src/src/Shared/src/Signals.cpp:108-119`):
returns the stored reason and a copy of the buffer capped at
`MAX_MESSAGE_LENGTH` characters. -/
def getReason (s : State) : Info :=
  { reason := s.sRequestReason
  , message := s.sMessageBuf.take MAX_MESSAGE_LENGTH }

end VKING.Shutdown.Legacy

namespace VKING.Logger

/-- `VKING_Logging_Level` from `src/src/Engine/Logging/LoggerStableCABI.h`. -/
inductive Level
  | VKING_LOG_TRACE
  | VKING_LOG_DEBUG
  | VKING_LOG_INFO
  | VKING_LOG_WARN
  | VKING_LOG_ERROR
  | VKING_LOG_CRITICAL
  | VKING_LOG_OFF
deriving DecidableEq, Repr

/-- The `VKING_Logging_API` table
(`src/src/Engine/Logging/LoggerStableCABI.h:43-58`): `abiVersion`,
`structSize` and three function-pointer fields.  A function pointer is
modelled by its null/non-null status (`Option Unit`); the observable
behaviour of calling `logMessage` is captured separately as the list of
downstream calls emitted by `log`. -/
structure VKING_Logging_API where
  abiVersion : Nat
  structSize : Nat
  logMessage : Option Unit
  getGlobalLogLevel : Option Unit
  setGlobalLogLevel : Option Unit
deriving DecidableEq, Repr

/-- The consumer's expected ABI version,
`constexpr uint32_t expectedABIVersion = 1` in `detail::install`
(`src/src/Engine/Logging/LoggerTemplates.hpp:112`). -/
def expectedABIVersion : Nat := 1

/-- `sizeof(VKING_Logging_API)` on the LP64 model the engine targets:
two `uint32_t` fields plus three 8-byte function pointers, 32 bytes. -/
def sizeofLoggingAPI : Nat := 32

/-- `VKING::Logger::detail::install`
(`src/src/Engine/Logging/LoggerTemplates.hpp:111-157`) expressed as the
value stored into `g_api`: null pointer, ABI-version mismatch, too-small
`structSize` and null `logMessage` each store null; otherwise the table
pointer itself is stored.  Every path performs an unconditional
`g_api.store`, so the result does not depend on the previous slot value. -/
def install (api : Option VKING_Logging_API) : Option VKING_Logging_API :=
  match api with
  | none => none
  | some a =>
    if a.abiVersion != expectedABIVersion then none
    else if a.structSize < sizeofLoggingAPI then none
    else if a.logMessage.isNone then none
    else some a

/-- The per-binary `detail::g_api` slot after a sequence of `install`
calls, starting from its null initializer
(`src/src/Engine/Logging/LoggerTemplates.hpp:93`).  The fold ignores the
previous slot value because every path of `install` stores
unconditionally (last write wins). -/
def g_apiAfter (calls : List (Option VKING_Logging_API)) : Option VKING_Logging_API :=
  calls.foldl (fun _slot api => install api) none

/-- `std::source_location` as used by `Named<...>::log`: file name, line
and function name of the call site. -/
structure SourceLocation where
  fileName : String
  line : Nat
  functionName : String
deriving DecidableEq, Repr

/-- One downstream invocation of the installed table's `logMessage`
function pointer, with its argument tuple
(`src/src/Engine/Logging/LoggerTemplates.hpp:296-303`). -/
structure LogCall where
  level : Level
  logger : String
  file : String
  line : Nat
  functionName : String
  message : String
deriving DecidableEq, Repr

/-- `VKING::Logger::Named<Name>::log<Level>(loc, fmt, args...)`
(`src/src/Engine/Logging/LoggerTemplates.hpp:275-304`) as the list of
downstream `logMessage` invocations it performs.  `gApi` is the binary's
`detail::g_api` slot; `name` is `Name.data`; `formatted` stands for the
string `fmt::format(fmt, args...)` produced locally in the calling
binary.  A null table or a null `logMessage` pointer yields no downstream
call (only a stderr diagnostic); otherwise exactly one call is made with
the tuple `(Level, Name.data, loc.file_name(), loc.line(),
loc.function_name(), msg.c_str())`. -/
def log (gApi : Option VKING_Logging_API) (level : Level) (name : String)
    (loc : SourceLocation) (formatted : String) : List LogCall :=
  match gApi with
  | none => []
  | some api =>
    match api.logMessage with
    | none => []
    | some _ =>
      [{ level := level
       , logger := name
       , file := loc.fileName
       , line := loc.line
       , functionName := loc.functionName
       , message := formatted }]

end VKING.Logger

namespace VKING.EngineConfig

/-- `Types::Platform::PlatformType`.  The C++ module interface defining it
is not under `src/`; the constructor set mirrors the parallel C ABI enum
`VKING_Plugin_Render_PlatformType`
(`src/src/Engine/Plugins/Render/RenderABISpec.h:47-55`) and the values
`selectPlatform` uses (`GLFW`, `PLATFORM_NO_PREFERENCE`).  `selectPlatform`
only ever compares these values for equality. -/
inductive PlatformType
  | GLFW
  | WAYLAND
  | X11
  | COCOA
  | WIN32
  | PLATFORM_UNSUPPORTED
  | PLATFORM_NO_PREFERENCE
deriving DecidableEq, Repr, BEq

/-- `Types::Platform::BackendType`, mirroring
`VKING_Plugin_Render_BackendType`
(`src/src/Engine/Plugins/Render/RenderABISpec.h:36-44`). -/
inductive BackendType
  | VULKAN
  | METAL
  | GNM
  | OPENGL
  | DIRECTX_12
  | BACKEND_UNSUPPORTED
  | BACKEND_NO_PREFERENCE
deriving DecidableEq, Repr, BEq

/-- `PlatformSpecification::PlatformCreateInfo`: holds the
`pfn_PlatformManagerCreate` function pointer (shape taken from its use in
`src/src/Engine/Config/ConfigFns.cpp:70-72,149-150`).  Calling the pointer
returns a `PlatformManager*`, which may be null (`Option PM`). -/
structure PlatformCreateInfo (PM : Type) where
  pfn_PlatformManagerCreate : Unit → Option PM

/-- `PlatformManager::PlatformSpecification` as used by `selectPlatform`:
an optional create-info plus the requested/provided platform and backend
types (`src/src/Engine/Config/ConfigFns.cpp:69-75,103-106,149`). -/
structure PlatformSpecification (PM : Type) where
  platformCreateInfo : Option (PlatformCreateInfo PM)
  platformType : PlatformType
  backendType : BackendType

/-- `ScoredType<T>`: a value with its `uint16_t` score, lower is better
(shape taken from its use in `src/src/Engine/Config/ConfigFns.cpp`). -/
structure ScoredType (α : Type) where
  value : α
  score : Nat

/-- `std::numeric_limits<uint16_t>::max()`, the sentinel "invalid" score. -/
def UINT16_MAX : Nat := 65535

/-- The match test of the preferred loop
(`src/src/Engine/Config/ConfigFns.cpp:103-108`): each requested field is
either the no-preference wildcard or exactly equal to the candidate's
field. -/
def candidateMatches {PM : Type} (desired : PlatformSpecification PM)
    (entry : ScoredType (PlatformSpecification PM)) : Bool :=
  (desired.platformType == PlatformType.PLATFORM_NO_PREFERENCE ||
   desired.platformType == entry.value.platformType) &&
  (desired.backendType == BackendType.BACKEND_NO_PREFERENCE ||
   desired.backendType == entry.value.backendType)

/-- Step 1 of `selectPlatform` (`src/src/Engine/Config/ConfigFns.cpp:99-114`):
the loop over the table carrying `minPreferredScore` (initially
`UINT16_MAX`) and `preferredCandidate` (initially empty), taking an entry
when it matches and strictly improves the running minimum. -/
def scanPreferred {PM : Type} (desired : PlatformSpecification PM) :
    List (ScoredType (PlatformSpecification PM)) → Nat →
    Option (ScoredType (PlatformSpecification PM)) →
    Option (ScoredType (PlatformSpecification PM))
  | [], _, best => best
  | e :: rest, minScore, best =>
    if candidateMatches desired e && decide (e.score < minScore) then
      scanPreferred desired rest e.score (some e)
    else
      scanPreferred desired rest minScore best

/-- The fallback loop of `selectPlatform`
(`src/src/Engine/Config/ConfigFns.cpp:124-130`): scans the whole table
ignoring the request, taking an entry when it strictly improves the
running minimum and its score is not the sentinel. -/
def scanFallback {PM : Type} :
    List (ScoredType (PlatformSpecification PM)) → Nat →
    Option (ScoredType (PlatformSpecification PM)) →
    Option (ScoredType (PlatformSpecification PM))
  | [], _, best => best
  | e :: rest, minScore, best =>
    if decide (e.score < minScore) && (e.score != UINT16_MAX) then
      scanFallback rest e.score (some e)
    else
      scanFallback rest minScore best

/-- The candidate `selectPlatform` ends up with after the two phases
(`src/src/Engine/Config/ConfigFns.cpp:99-138`): the preferred candidate
if one was found and its score is not the sentinel, otherwise the result
of the fallback scan (the source resets `preferredCandidate` and
`minPreferredScore` before the fallback loop). -/
def chosenCandidate {PM : Type} (desired : PlatformSpecification PM)
    (table : List (ScoredType (PlatformSpecification PM))) :
    Option (ScoredType (PlatformSpecification PM)) :=
  match scanPreferred desired table UINT16_MAX none with
  | some c =>
    if c.score != UINT16_MAX then some c
    else scanFallback table UINT16_MAX none
  | none => scanFallback table UINT16_MAX none

/-- The creation step (`src/src/Engine/Config/ConfigFns.cpp:147-153`):
`result` is null unless the candidate has a create-info, in which case it
is whatever `pfn_PlatformManagerCreate()` returns. -/
def createFromCandidate {PM : Type}
    (c : ScoredType (PlatformSpecification PM)) : Option PM :=
  match c.value.platformCreateInfo with
  | some ci => ci.pfn_PlatformManagerCreate ()
  | none => none

/-- `VKING::EngineConfig::selectPlatform`
(`src/src/Engine/Config/ConfigFns.cpp:88-163`): pick a candidate in two
phases, fail (null) if none was picked, call its creation entry point,
fail (null) if the result is null, otherwise wrap and return it. -/
def selectPlatform {PM : Type} (desired : PlatformSpecification PM)
    (table : List (ScoredType (PlatformSpecification PM))) : Option PM :=
  match chosenCandidate desired table with
  | none => none
  | some c =>
    match createFromCandidate c with
    | none => none
    | some pm => some pm

/-- Reference recursion for one strict-improvement minimum scan below a
bound: the earliest entry satisfying `p` whose score is below `bound` and
below every later contender.  Both source loops are instances of this. -/
def loopMin {PM : Type} (p : ScoredType (PlatformSpecification PM) → Bool)
    (bound : Nat) :
    List (ScoredType (PlatformSpecification PM)) →
    Option (ScoredType (PlatformSpecification PM))
  | [] => none
  | e :: rest =>
    if p e && decide (e.score < bound) then
      some ((loopMin p e.score rest).getD e)
    else
      loopMin p bound rest

end VKING.EngineConfig

namespace VKING.Logger

/-- A validly-shaped logging table: version 1, exactly the compiled-in
size, all function pointers present. -/
def validAPI : VKING_Logging_API :=
  { abiVersion := 1
  , structSize := 32
  , logMessage := some ()
  , getGlobalLogLevel := some ()
  , setGlobalLogLevel := some () }

/-- A table with `abiVersion` 2 against a consumer expecting 1. -/
def mismatchedAPI : VKING_Logging_API :=
  { abiVersion := 2
  , structSize := 32
  , logMessage := some ()
  , getGlobalLogLevel := some ()
  , setGlobalLogLevel := some () }

/-- A concrete call site. -/
def locEx : SourceLocation :=
  { fileName := "ConfigFns.cpp", line := 92, functionName := "selectPlatform" }

end VKING.Logger

namespace VKING.EngineConfig

/-- A creation entry point that successfully returns the manager `n`
(managers are modelled by numbers in the examples). -/
def exCreate (n : Nat) : PlatformCreateInfo Nat :=
  { pfn_PlatformManagerCreate := fun _ => some n }

/-- Example specification record. -/
def exSpec (pt : PlatformType) (bt : BackendType)
    (ci : Option (PlatformCreateInfo Nat)) : PlatformSpecification Nat :=
  { platformCreateInfo := ci, platformType := pt, backendType := bt }

/-- The (GLFW, VULKAN) score-10 candidate of the duplicate scenario. -/
def entry9a : ScoredType (PlatformSpecification Nat) :=
  { value := exSpec PlatformType.GLFW BackendType.VULKAN (some (exCreate 1))
  , score := 10 }

/-- The (GLFW, VULKAN) score-5 duplicate candidate. -/
def entry9b : ScoredType (PlatformSpecification Nat) :=
  { value := exSpec PlatformType.GLFW BackendType.VULKAN (some (exCreate 2))
  , score := 5 }

/-- The duplicate-scenario table. -/
def table9 : List (ScoredType (PlatformSpecification Nat)) := [entry9a, entry9b]

/-- The (GLFW, VULKAN) request of the duplicate scenario. -/
def desired9 : PlatformSpecification Nat :=
  exSpec PlatformType.GLFW BackendType.VULKAN none

/-- A best-scoring candidate with no creation entry point. -/
def entry8a : ScoredType (PlatformSpecification Nat) :=
  { value := exSpec PlatformType.GLFW BackendType.VULKAN none, score := 1 }

/-- A worse-scoring candidate with a usable creation entry point. -/
def entry8b : ScoredType (PlatformSpecification Nat) :=
  { value := exSpec PlatformType.GLFW BackendType.VULKAN (some (exCreate 7))
  , score := 2 }

/-- Table whose global minimum-score candidate has no creation entry
point while a usable candidate exists. -/
def table8 : List (ScoredType (PlatformSpecification Nat)) := [entry8a, entry8b]

/-- A request matching no candidate of `table8` (WAYLAND vs GLFW). -/
def desired8 : PlatformSpecification Nat :=
  exSpec PlatformType.WAYLAND BackendType.VULKAN none

/-- A one-candidate table whose candidate is usable. -/
def table8s : List (ScoredType (PlatformSpecification Nat)) := [entry8b]

/-- A request matching `table8s`. -/
def desired8s : PlatformSpecification Nat :=
  exSpec PlatformType.GLFW BackendType.VULKAN none

/-- A (GLFW, VULKAN) candidate carrying the sentinel invalid score. -/
def entry8s1 : ScoredType (PlatformSpecification Nat) :=
  { value := exSpec PlatformType.GLFW BackendType.VULKAN (some (exCreate 9))
  , score := UINT16_MAX }

/-- A non-matching minimum-score candidate with no creation entry point. -/
def entry8s2 : ScoredType (PlatformSpecification Nat) :=
  { value := exSpec PlatformType.WAYLAND BackendType.VULKAN none, score := 1 }

/-- A non-matching usable candidate. -/
def entry8s3 : ScoredType (PlatformSpecification Nat) :=
  { value := exSpec PlatformType.WAYLAND BackendType.VULKAN (some (exCreate 7))
  , score := 2 }

/-- Table for the sentinel trigger: the (GLFW, VULKAN) request does match
a candidate, but its only match carries the sentinel score, so the
fallback runs; the fallback's minimum-score pick has no creation entry
point while a usable candidate exists. -/
def table8sent : List (ScoredType (PlatformSpecification Nat)) :=
  [entry8s1, entry8s2, entry8s3]

end VKING.EngineConfig

namespace VKING.Shutdown

theorem requestSeq_cons (c : Reason × Option String)
    (cs : List (Reason × Option String)) (s : State) :
    requestSeq (c :: cs) s = requestSeq cs (request c.1 c.2 s) := rfl

theorem requestSeq_of_flag_set (calls : List (Reason × Option String)) :
    ∀ s : State, s.sShutdownRequestedThreadSafe = true → requestSeq calls s = s := by
  induction calls with
  | nil => intro s _; rfl
  | cons c cs ih =>
    intro s h
    rw [requestSeq_cons]
    have hfix : request c.1 c.2 s = s := by simp [request, h]
    rw [hfix]
    exact ih s h

/-- C1 (corrected): first-writer-wins holds in the Engine implementation of
`VKING::Shutdown::request` (`src/Engine/Signals/Signals.cpp:93-106`): from
a state with the thread-path flag clear, the first call of a `request`
sequence sets the flag and stores its reason and message, every later call
is a no-op, and (while the signal path is unset) `getReason()` returns the
first call's pair.  In the legacy implementation
(`src/src/Shared/src/Signals.cpp:71-94`) `request` is last-writer-wins:
every call overwrites the stored reason and (truncated) message. -/
theorem request_first_writer_wins
    (s : State) (h : s.sShutdownRequestedThreadSafe = false)
    (r : Reason) (m : Option String) (rest : List (Reason × Option String)) :
    requestSeq ((r, m) :: rest) s = request r m s ∧
    (request r m s).sRequestReasonThreadSafe = r ∧
    (request r m s).sMessage = m.getD "" ∧
    (s.sShutdownRequestedSignalSafe = false →
      getReason (requestSeq ((r, m) :: rest) s) = { reason := r, message := m.getD "" }) ∧
    ∀ (t : Legacy.State) (r2 : Reason) (m2 : String),
      (Legacy.request r2 (some m2) t).sRequestReason = r2 ∧
      (Legacy.request r2 (some m2) t).sMessageBuf =
        m2.take (Legacy.MAX_MESSAGE_LENGTH - 1) := by
  have hreq : request r m s =
      { s with sShutdownRequestedThreadSafe := true
             , sRequestReasonThreadSafe := r
             , sMessage := m.getD "" } := by
    simp [request, h]
  have hseq : requestSeq ((r, m) :: rest) s = request r m s := by
    rw [requestSeq_cons]
    exact requestSeq_of_flag_set rest _ (by rw [hreq])
  refine ⟨hseq, by rw [hreq], by rw [hreq], ?_,
    fun t r2 m2 => ⟨rfl, by simp [Legacy.request]⟩⟩
  intro hsig
  rw [hseq, hreq]
  simp [getReason, getReasonAcq, hsig]

/-- Witness for C1: concrete two-call sequence from the idle state. -/
theorem request_first_writer_wins_witness :
    initialState.sShutdownRequestedThreadSafe = false ∧
    getReason (requestSeq
        [(Reason.REASON_USER_REQUEST, some "first"),
         (Reason.REASON_FATAL_ERROR, some "second")] initialState)
      = { reason := Reason.REASON_USER_REQUEST, message := "first" } ∧
    (Legacy.request Reason.REASON_FATAL_ERROR (some "second")
        (Legacy.request Reason.REASON_USER_REQUEST (some "first")
          Legacy.initialState)).sRequestReason = Reason.REASON_FATAL_ERROR := by
  have h := request_first_writer_wins initialState rfl Reason.REASON_USER_REQUEST
      (some "first") [(Reason.REASON_FATAL_ERROR, some "second")]
  exact ⟨rfl, h.2.2.2.1 rfl, (h.2.2.2.2 _ Reason.REASON_FATAL_ERROR "second").1⟩

end VKING.Shutdown

namespace VKING.Shutdown.Legacy

/-- C1 counterexample: in the legacy implementation
(`src/src/Shared/src/Signals.cpp:71-94`) the second `request` call is not
a no-op — `getReason()` then returns the second call's reason and message,
not the first call's. -/
theorem request_last_writer_wins_cex :
    getReason (request Reason.REASON_FATAL_ERROR (some "second")
        (request Reason.REASON_USER_REQUEST (some "first") initialState))
      = { reason := Reason.REASON_FATAL_ERROR, message := "second" } ∧
    getReason (request Reason.REASON_FATAL_ERROR (some "second")
        (request Reason.REASON_USER_REQUEST (some "first") initialState))
      ≠ { reason := Reason.REASON_USER_REQUEST, message := "first" } := by
  constructor
  · decide
  · decide

end VKING.Shutdown.Legacy

namespace VKING.Shutdown

/-- C2: when the signal-path flag and the thread-path flag are both set,
`getReason()` returns the signal-path reason paired with its fixed
per-reason-code message, ignoring the thread-path reason and message, and
does not acquire the message mutex (the instrumented boolean is false). -/
theorem getReason_signal_priority
    (s : State) (h1 : s.sShutdownRequestedSignalSafe = true)
    (_h2 : s.sShutdownRequestedThreadSafe = true) :
    getReasonAcq s =
      ({ reason := s.sRequestReasonSignalSafe
       , message := signalPathMessage s.sRequestReasonSignalSafe }, false) := by
  simp [getReasonAcq, h1]

/-- Witness for C2: both paths set with distinct reasons; the signal-path
pair comes back and the mutex stays untouched. -/
theorem getReason_signal_priority_witness :
    getReasonAcq
      { sShutdownRequestedSignalSafe := true
      , sRequestReasonSignalSafe := Reason.REASON_SIGINT
      , sShutdownRequestedThreadSafe := true
      , sRequestReasonThreadSafe := Reason.REASON_USER_RESTART
      , sMessage := "thread path message" }
      = ({ reason := Reason.REASON_SIGINT
         , message := signalPathMessage Reason.REASON_SIGINT }, false) ∧
    Reason.REASON_SIGINT ≠ Reason.REASON_USER_RESTART := by
  exact ⟨getReason_signal_priority _ rfl rfl, by decide⟩

/-- C3 (code bug): modelling the individual stores of the Engine
`request(reason, message)` as a step relation, there is a reachable state
in which the thread-path flag is already set (so `isRequested()` returns
true) while the winning call's reason has not yet been stored — because
the source performs the compare-exchange on the flag before the store to
`s_RequestReasonThreadSafe` (`src/Engine/Signals/Signals.cpp:96-100`),
contradicting the claimed ordering guarantee. -/
theorem request_flag_visible_before_reason :
    ∃ q : State × ReqPC,
      RequestReachable Reason.REASON_USER_REQUEST (some "user asked to quit") q ∧
      isRequested q.1 = true ∧
      q.1.sRequestReasonThreadSafe = Reason.REASON_NONE ∧
      q.1.sRequestReasonThreadSafe ≠ Reason.REASON_USER_REQUEST := by
  refine ⟨({ initialState with sShutdownRequestedThreadSafe := true }, ReqPC.flagSet),
    ?_, rfl, rfl, by decide⟩
  exact RequestReachable.step RequestReachable.start
    (RequestStep.casWins initialState rfl)

/-- C6: `restartRequested()` returns true exactly when something is
requested, the signal path is not the one set, and the thread-path reason
is `REASON_USER_RESTART` or `REASON_INVOLUNTARY_RESTART`; in particular it
is false when nothing is requested, false for every other reason
(including `REASON_NONE`), and always false when the signal-path flag is
set, regardless of the signal-path reason. -/
theorem restartRequested_iff (s : State) :
    restartRequested s = true ↔
      (isRequested s = true ∧ s.sShutdownRequestedSignalSafe = false ∧
       (s.sRequestReasonThreadSafe = Reason.REASON_USER_RESTART ∨
        s.sRequestReasonThreadSafe = Reason.REASON_INVOLUNTARY_RESTART)) := by
  obtain ⟨sig, sigR, th, thR, msg⟩ := s
  cases sig <;> cases th <;>
    simp [restartRequested, isRequested] <;>
    cases thR <;> decide

/-- C7: from any state, `clearRequest()` yields a state in which nothing
is requested, both reasons are `REASON_NONE` and the message is cleared,
and a subsequent `request` takes effect: its test-and-set wins, its reason
and message are stored and become observable through `getReason()`. -/
theorem clearRequest_resets_and_unblocks (s : State) (r : Reason) (m : Option String) :
    isRequested (clearRequest s) = false ∧
    (clearRequest s).sRequestReasonSignalSafe = Reason.REASON_NONE ∧
    (clearRequest s).sRequestReasonThreadSafe = Reason.REASON_NONE ∧
    (clearRequest s).sMessage = "" ∧
    (request r m (clearRequest s)).sShutdownRequestedThreadSafe = true ∧
    (request r m (clearRequest s)).sRequestReasonThreadSafe = r ∧
    (request r m (clearRequest s)).sMessage = m.getD "" ∧
    getReason (request r m (clearRequest s)) = { reason := r, message := m.getD "" } := by
  refine ⟨rfl, rfl, rfl, rfl, ?_, ?_, ?_, ?_⟩ <;>
    simp [request, clearRequest, getReason, getReasonAcq]

end VKING.Shutdown

namespace VKING.Logger

theorem install_eq_none_iff (api : Option VKING_Logging_API) :
    install api = none ↔
      api = none ∨ ∃ a, api = some a ∧
        (a.abiVersion ≠ expectedABIVersion ∨ a.structSize < sizeofLoggingAPI ∨
         a.logMessage = none) := by
  cases api with
  | none => simp [install]
  | some a =>
    simp only [install]
    constructor
    · intro h
      refine Or.inr ⟨a, rfl, ?_⟩
      by_cases h1 : (a.abiVersion != expectedABIVersion) = true
      · exact Or.inl (bne_iff_ne.mp h1)
      · rw [if_neg h1] at h
        by_cases h2 : a.structSize < sizeofLoggingAPI
        · exact Or.inr (Or.inl h2)
        · rw [if_neg (by simpa using h2)] at h
          by_cases h3 : a.logMessage.isNone = true
          · exact Or.inr (Or.inr (Option.isNone_iff_eq_none.mp h3))
          · rw [if_neg h3] at h
            exact absurd h (by simp)
    · rintro (h | ⟨b, hb, hcond⟩)
      · exact absurd h (by simp)
      · injection hb with hb
        subst hb
        rcases hcond with h1 | h2 | h3
        · rw [if_pos (by simpa [bne_iff_ne] using h1)]
        · split_ifs <;> first | rfl | exact absurd h2 (by omega)
        · split_ifs <;> first | rfl | simp_all

theorem install_eq_some (api : Option VKING_Logging_API) (a : VKING_Logging_API)
    (h : install api = some a) : api = some a := by
  cases api with
  | none => exact absurd h (by simp [install])
  | some b =>
    simp only [install] at h
    split_ifs at h <;>
      first
      | exact Option.noConfusion h
      | (injection h with h; rw [h])

/-- C4: `detail::install(api)` leaves `g_api` null exactly when `api` is
null, its `abiVersion` differs from the consumer's expected version 1, its
`structSize` is smaller than the consumer's compiled-in struct size, or
its `logMessage` pointer is null; in the rejection cases a subsequent
`Named<...>::log` call performs zero downstream `logMessage` calls, and
otherwise `install` stores the table pointer itself. -/
theorem install_validation (api : Option VKING_Logging_API)
    (lvl : Level) (nm : String) (loc : SourceLocation) (msg : String) :
    (install api = none ↔
      api = none ∨ ∃ a, api = some a ∧
        (a.abiVersion ≠ expectedABIVersion ∨ a.structSize < sizeofLoggingAPI ∨
         a.logMessage = none)) ∧
    ((install api = none ∧ log (install api) lvl nm loc msg = []) ∨
      install api = api) := by
  refine ⟨install_eq_none_iff api, ?_⟩
  cases h : install api with
  | none => exact Or.inl ⟨rfl, rfl⟩
  | some a => exact Or.inr (install_eq_some api a h).symm

/-- C5: once a table is installed successfully, each `Named<...>::log`
call performs exactly one downstream `logMessage` invocation, carrying
exactly the tuple (level, category name, `loc.file_name()`, `loc.line()`,
`loc.function_name()`, the locally formatted message). -/
theorem log_roundtrip (a : VKING_Logging_API)
    (h : install (some a) = some a) (lvl : Level) (nm : String)
    (loc : SourceLocation) (msg : String) :
    log (install (some a)) lvl nm loc msg =
      [{ level := lvl, logger := nm, file := loc.fileName, line := loc.line
       , functionName := loc.functionName, message := msg }] := by
  rw [h]
  cases hl : a.logMessage with
  | none =>
    have hn : install (some a) = none :=
      (install_eq_none_iff (some a)).mpr (Or.inr ⟨a, rfl, Or.inr (Or.inr hl)⟩)
    rw [h] at hn
    exact absurd hn (by simp)
  | some u => simp [log, hl]

/-- Witness for C5: a concrete valid table, a concrete call site and
message. -/
theorem log_roundtrip_witness :
    install (some validAPI) = some validAPI ∧
    log (install (some validAPI)) Level.VKING_LOG_INFO "EngineConfig" locEx
        "Attempting to select platform: GLFW"
      = [{ level := Level.VKING_LOG_INFO, logger := "EngineConfig"
         , file := "ConfigFns.cpp", line := 92, functionName := "selectPlatform"
         , message := "Attempting to select platform: GLFW" }] := by
  exact ⟨rfl, log_roundtrip validAPI rfl Level.VKING_LOG_INFO "EngineConfig" locEx
    "Attempting to select platform: GLFW"⟩

/-- C10: the per-binary `g_api` slot is last-write-wins, not set-once:
after a successful install of a valid table, a later `install` whose
argument fails validation stores null over it, so subsequent `log` calls
in that binary make no downstream calls. -/
theorem install_last_write_wins (good bad : VKING_Logging_API)
    (_hgood : install (some good) = some good)
    (hbad : bad.abiVersion ≠ expectedABIVersion ∨ bad.structSize < sizeofLoggingAPI ∨
            bad.logMessage = none)
    (lvl : Level) (nm : String) (loc : SourceLocation) (msg : String) :
    g_apiAfter [some good, some bad] = none ∧
    log (g_apiAfter [some good, some bad]) lvl nm loc msg = [] := by
  have hb : install (some bad) = none :=
    (install_eq_none_iff (some bad)).mpr (Or.inr ⟨bad, rfl, hbad⟩)
  have hg : g_apiAfter [some good, some bad] = install (some bad) := rfl
  rw [hg, hb]
  exact ⟨rfl, rfl⟩

/-- Witness for C10: install the valid table, then a version-2 table. -/
theorem install_last_write_wins_witness :
    install (some validAPI) = some validAPI ∧
    mismatchedAPI.abiVersion ≠ expectedABIVersion ∧
    g_apiAfter [some validAPI, some mismatchedAPI] = none ∧
    log (g_apiAfter [some validAPI, some mismatchedAPI]) Level.VKING_LOG_ERROR
        "Host" locEx "lost" = [] := by
  have h := install_last_write_wins validAPI mismatchedAPI rfl
    (Or.inl (by decide)) Level.VKING_LOG_ERROR "Host" locEx "lost"
  exact ⟨rfl, by decide, h.1, h.2⟩

end VKING.Logger

namespace VKING.EngineConfig

theorem scanPreferred_eq_loopMin {PM : Type} (d : PlatformSpecification PM) :
    ∀ (t : List (ScoredType (PlatformSpecification PM))) (bound : Nat)
      (best : Option (ScoredType (PlatformSpecification PM))),
      scanPreferred d t bound best =
        match loopMin (candidateMatches d) bound t with
        | some m => some m
        | none => best := by
  intro t
  induction t with
  | nil => intro bound best; rfl
  | cons e rest ih =>
    intro bound best
    simp only [scanPreferred, loopMin]
    by_cases hc : (candidateMatches d e && decide (e.score < bound)) = true
    · rw [if_pos hc, if_pos hc, ih]
      cases loopMin (candidateMatches d) e.score rest <;> rfl
    · rw [if_neg hc, if_neg hc, ih]

theorem scanFallback_eq_loopMin {PM : Type} :
    ∀ (t : List (ScoredType (PlatformSpecification PM))) (bound : Nat)
      (best : Option (ScoredType (PlatformSpecification PM))),
      scanFallback t bound best =
        match loopMin (fun e => e.score != UINT16_MAX) bound t with
        | some m => some m
        | none => best := by
  intro t
  induction t with
  | nil => intro bound best; rfl
  | cons e rest ih =>
    intro bound best
    simp only [scanFallback, loopMin]
    rw [Bool.and_comm]
    by_cases hc : ((e.score != UINT16_MAX) && decide (e.score < bound)) = true
    · rw [if_pos hc, if_pos hc, ih]
      cases loopMin (fun e => e.score != UINT16_MAX) e.score rest <;> rfl
    · rw [if_neg hc, if_neg hc, ih]

theorem loopMin_none_prop {PM : Type}
    (p : ScoredType (PlatformSpecification PM) → Bool) :
    ∀ (t : List (ScoredType (PlatformSpecification PM))) (bound : Nat),
      loopMin p bound t = none →
      ∀ e ∈ t, p e = true → bound ≤ e.score := by
  intro t
  induction t with
  | nil => intro bound _ e he; exact absurd he (List.not_mem_nil e)
  | cons a rest ih =>
    intro bound h e he hpe
    simp only [loopMin] at h
    by_cases hc : (p a && decide (a.score < bound)) = true
    · rw [if_pos hc] at h
      exact Option.noConfusion h
    · rw [if_neg hc] at h
      rcases List.mem_cons.mp he with rfl | he2
      · by_contra hlt
        exact hc (by simp [hpe, Nat.lt_of_not_le hlt])
      · exact ih bound h e he2 hpe

theorem loopMin_some_prop {PM : Type}
    (p : ScoredType (PlatformSpecification PM) → Bool) :
    ∀ (t : List (ScoredType (PlatformSpecification PM))) (bound : Nat)
      (m : ScoredType (PlatformSpecification PM)),
      loopMin p bound t = some m →
      m ∈ t ∧ p m = true ∧ m.score < bound ∧
      (∀ e ∈ t, p e = true → m.score ≤ e.score) ∧
      ∃ t1 t2, t = t1 ++ m :: t2 ∧ ∀ e ∈ t1, p e = true → m.score < e.score := by
  intro t
  induction t with
  | nil => intro bound m h; exact Option.noConfusion h
  | cons a rest ih =>
    intro bound m h
    simp only [loopMin] at h
    by_cases hc : (p a && decide (a.score < bound)) = true
    · rw [if_pos hc] at h
      rw [Bool.and_eq_true] at hc
      obtain ⟨hpa, hltb⟩ := hc
      have hlt : a.score < bound := of_decide_eq_true hltb
      injection h with h
      cases hrec : loopMin p a.score rest with
      | none =>
        rw [hrec] at h
        simp only [Option.getD_none] at h
        subst h
        refine ⟨List.mem_cons_self a rest, hpa, hlt, ?_, [], rest, rfl, ?_⟩
        · intro x hx hpx
          rcases List.mem_cons.mp hx with rfl | hx2
          · exact le_refl _
          · exact loopMin_none_prop p rest a.score hrec x hx2 hpx
        · intro x hx
          exact absurd hx (List.not_mem_nil x)
      | some m2 =>
        rw [hrec] at h
        simp only [Option.getD_some] at h
        subst h
        obtain ⟨hm, hpm, hlt2, hmin, t1, t2, heq, hstrict⟩ := ih a.score m2 hrec
        refine ⟨List.mem_cons_of_mem a hm, hpm, lt_trans hlt2 hlt, ?_,
          a :: t1, t2, by simp [heq], ?_⟩
        · intro x hx hpx
          rcases List.mem_cons.mp hx with rfl | hx2
          · exact le_of_lt hlt2
          · exact hmin x hx2 hpx
        · intro x hx hpx
          rcases List.mem_cons.mp hx with rfl | hx2
          · exact hlt2
          · exact hstrict x hx2 hpx
    · rw [if_neg hc] at h
      obtain ⟨hm, hpm, hlt2, hmin, t1, t2, heq, hstrict⟩ := ih bound m h
      have ha : p a = true → bound ≤ a.score := by
        intro hpa
        by_contra hnb
        exact hc (by simp [hpa, Nat.lt_of_not_le hnb])
      refine ⟨List.mem_cons_of_mem a hm, hpm, hlt2, ?_, a :: t1, t2, by simp [heq], ?_⟩
      · intro x hx hpx
        rcases List.mem_cons.mp hx with rfl | hx2
        · exact le_trans (le_of_lt hlt2) (ha hpx)
        · exact hmin x hx2 hpx
      · intro x hx hpx
        rcases List.mem_cons.mp hx with rfl | hx2
        · exact lt_of_lt_of_le hlt2 (ha hpx)
        · exact hstrict x hx2 hpx

theorem loopMin_none_of_false {PM : Type}
    (p : ScoredType (PlatformSpecification PM) → Bool) :
    ∀ (t : List (ScoredType (PlatformSpecification PM))) (bound : Nat),
      (∀ e ∈ t, p e = false) → loopMin p bound t = none := by
  intro t
  induction t with
  | nil => intro bound _; rfl
  | cons a rest ih =>
    intro bound hall
    simp only [loopMin]
    rw [if_neg (by simp [hall a (List.mem_cons_self a rest)])]
    exact ih bound fun e he => hall e (List.mem_cons_of_mem a he)

theorem scanPreferred_props {PM : Type} (d : PlatformSpecification PM)
    (table : List (ScoredType (PlatformSpecification PM)))
    (c : ScoredType (PlatformSpecification PM))
    (h : scanPreferred d table UINT16_MAX none = some c) :
    c ∈ table ∧ candidateMatches d c = true ∧ c.score < UINT16_MAX := by
  rw [scanPreferred_eq_loopMin] at h
  cases hlm : loopMin (candidateMatches d) UINT16_MAX table with
  | none => rw [hlm] at h; exact Option.noConfusion h
  | some m =>
    rw [hlm] at h
    injection h with h
    subst h
    obtain ⟨hm, hpm, hlt, _⟩ := loopMin_some_prop (candidateMatches d) table UINT16_MAX _ hlm
    exact ⟨hm, hpm, hlt⟩

theorem scanFallback_props {PM : Type}
    (table : List (ScoredType (PlatformSpecification PM)))
    (c : ScoredType (PlatformSpecification PM))
    (h : scanFallback table UINT16_MAX none = some c) :
    c ∈ table ∧ c.score < UINT16_MAX ∧
    ∀ e ∈ table, e.score ≠ UINT16_MAX → c.score ≤ e.score := by
  rw [scanFallback_eq_loopMin] at h
  cases hlm : loopMin (fun e => e.score != UINT16_MAX) UINT16_MAX table with
  | none => rw [hlm] at h; exact Option.noConfusion h
  | some m =>
    rw [hlm] at h
    injection h with h
    subst h
    obtain ⟨hm, _, hlt, hmin, _⟩ :=
      loopMin_some_prop (fun e => e.score != UINT16_MAX) table UINT16_MAX _ hlm
    exact ⟨hm, hlt, fun e he hne => hmin e he (by simpa [bne_iff_ne] using hne)⟩

theorem chosenCandidate_cases {PM : Type} (d : PlatformSpecification PM)
    (table : List (ScoredType (PlatformSpecification PM))) :
    chosenCandidate d table = scanFallback table UINT16_MAX none ∨
    ∃ c, scanPreferred d table UINT16_MAX none = some c ∧
      chosenCandidate d table = some c := by
  unfold chosenCandidate
  cases hp : scanPreferred d table UINT16_MAX none with
  | none => exact Or.inl rfl
  | some c0 =>
    by_cases hs : (c0.score != UINT16_MAX) = true
    · refine Or.inr ⟨c0, rfl, ?_⟩
      show (if (c0.score != UINT16_MAX) = true then some c0
            else scanFallback table UINT16_MAX none) = some c0
      rw [if_pos hs]
    · refine Or.inl ?_
      show (if (c0.score != UINT16_MAX) = true then some c0
            else scanFallback table UINT16_MAX none) = scanFallback table UINT16_MAX none
      rw [if_neg hs]

theorem chosenCandidate_mem {PM : Type} (d : PlatformSpecification PM)
    (table : List (ScoredType (PlatformSpecification PM)))
    (c : ScoredType (PlatformSpecification PM))
    (h : chosenCandidate d table = some c) : c ∈ table := by
  rcases chosenCandidate_cases d table with hf | ⟨c0, hp, hc⟩
  · rw [hf] at h
    exact (scanFallback_props table c h).1
  · rw [hc] at h
    injection h with h
    subst h
    exact (scanPreferred_props d table _ hp).1

theorem selectPlatform_some_from_entry {PM : Type} (d : PlatformSpecification PM)
    (table : List (ScoredType (PlatformSpecification PM))) (pm : PM)
    (h : selectPlatform d table = some pm) :
    ∃ e, e ∈ table ∧ ∃ ci, e.value.platformCreateInfo = some ci ∧
      ci.pfn_PlatformManagerCreate () = some pm := by
  unfold selectPlatform at h
  cases hch : chosenCandidate d table with
  | none =>
    simp only [hch] at h
    exact Option.noConfusion h
  | some c =>
    simp only [hch] at h
    cases hcr : createFromCandidate c with
    | none =>
      simp only [hcr] at h
      exact Option.noConfusion h
    | some pm2 =>
      simp only [hcr] at h
      injection h with h
      subst h
      have hmem := chosenCandidate_mem d table c hch
      unfold createFromCandidate at hcr
      cases hci : c.value.platformCreateInfo with
      | none => rw [hci] at hcr; exact Option.noConfusion hcr
      | some ci => rw [hci] at hcr; exact ⟨c, hmem, ci, hci, hcr⟩

theorem loopMin_none_of_ge {PM : Type}
    (p : ScoredType (PlatformSpecification PM) → Bool) :
    ∀ (t : List (ScoredType (PlatformSpecification PM))) (bound : Nat),
      (∀ e ∈ t, p e = true → bound ≤ e.score) → loopMin p bound t = none := by
  intro t
  induction t with
  | nil => intro bound _; rfl
  | cons a rest ih =>
    intro bound hall
    simp only [loopMin]
    rw [if_neg (by
      intro hc
      rw [Bool.and_eq_true] at hc
      exact absurd (of_decide_eq_true hc.2)
        (Nat.not_lt.mpr (hall a (List.mem_cons_self a rest) hc.1)))]
    exact ih bound fun e he hpe => hall e (List.mem_cons_of_mem a he) hpe

theorem chosen_eq_fallback_of_no_good_match {PM : Type}
    (d : PlatformSpecification PM)
    (table : List (ScoredType (PlatformSpecification PM)))
    (hng : ∀ e ∈ table, candidateMatches d e = true → UINT16_MAX ≤ e.score) :
    chosenCandidate d table = scanFallback table UINT16_MAX none := by
  unfold chosenCandidate
  rw [scanPreferred_eq_loopMin,
    loopMin_none_of_ge (candidateMatches d) table UINT16_MAX hng]

/-- C8 (corrected): when the preferred search yields nothing — no
candidate matches the request, or every match carries (at least) the
sentinel invalid score `UINT16_MAX`, the claim's "best match has the
sentinel score" trigger — `selectPlatform` falls back to scanning the
whole table ignoring the request, but it picks the global minimum-score
candidate among those with a non-sentinel score regardless of whether that
candidate has a creation entry point; if the picked candidate has no
creation entry point the operation fails by returning null even when a
usable candidate exists elsewhere in the table.  Both triggers are covered
by the hypothesis `∀ e ∈ table, candidateMatches d e = true →
UINT16_MAX ≤ e.score`, vacuously true when nothing matches.  What survives
of the original claim: an empty table yields null rather than a crash, and
a candidate with no creation entry point is never selected successfully —
every successful selection comes from calling some candidate's creation
entry point. -/
theorem selectPlatform_fallback_behavior {PM : Type}
    (d : PlatformSpecification PM)
    (table : List (ScoredType (PlatformSpecification PM))) :
    selectPlatform d ([] : List (ScoredType (PlatformSpecification PM))) = none ∧
    (∀ pm, selectPlatform d table = some pm →
      ∃ e, e ∈ table ∧ ∃ ci, e.value.platformCreateInfo = some ci ∧
        ci.pfn_PlatformManagerCreate () = some pm) ∧
    (∀ c, scanFallback table UINT16_MAX none = some c →
      c ∈ table ∧ c.score < UINT16_MAX ∧
      (∀ e ∈ table, e.score ≠ UINT16_MAX → c.score ≤ e.score) ∧
      ((∀ e ∈ table, candidateMatches d e = true → UINT16_MAX ≤ e.score) →
        c.value.platformCreateInfo = none → selectPlatform d table = none)) := by
  refine ⟨rfl, fun pm h => selectPlatform_some_from_entry d table pm h, fun c h => ?_⟩
  obtain ⟨hm, hlt, hmin⟩ := scanFallback_props table c h
  refine ⟨hm, hlt, hmin, fun hng hci => ?_⟩
  unfold selectPlatform
  rw [chosen_eq_fallback_of_no_good_match d table hng, h]
  show (match createFromCandidate c with
        | none => none
        | some pm => some pm) = none
  unfold createFromCandidate
  rw [hci]

/-- C8 counterexample: in `table8` the fallback is triggered (the WAYLAND
request matches nothing), a usable candidate exists (`entry8b`, score 2,
creation returns a manager), yet `selectPlatform` returns null because the
fallback picked the score-1 candidate that has no creation entry point —
so the fallback does not pick "the global minimum-score candidate that has
a usable creation entry point". -/
theorem selectPlatform_fallback_cex :
    selectPlatform desired8 table8 = none ∧
    (∃ e, e ∈ table8 ∧ ∃ ci, e.value.platformCreateInfo = some ci ∧
      ci.pfn_PlatformManagerCreate () = some 7) := by
  constructor
  · rfl
  · exact ⟨entry8b, List.mem_cons_of_mem entry8a (List.mem_cons_self entry8b []),
      exCreate 7, rfl, rfl⟩

/-- Witness for C8, exercising both fallback triggers: the success case
comes from a candidate's entry point; on the no-match table the fallback
pick (score 1, no entry point) makes the whole selection fail; and on the
sentinel table — where the request does match a candidate, but its only
match carries the sentinel score — the fallback likewise picks the
unusable score-1 candidate and the selection fails although a usable
candidate exists. -/
theorem selectPlatform_fallback_behavior_witness :
    (∃ e, e ∈ table8s ∧ ∃ ci, e.value.platformCreateInfo = some ci ∧
      ci.pfn_PlatformManagerCreate () = some 7) ∧
    selectPlatform desired8 table8 = none ∧
    candidateMatches desired8s entry8s1 = true ∧
    entry8s1.score = UINT16_MAX ∧
    (∀ e ∈ table8sent, candidateMatches desired8s e = true → UINT16_MAX ≤ e.score) ∧
    (∃ e, e ∈ table8sent ∧ ∃ ci, e.value.platformCreateInfo = some ci ∧
      ci.pfn_PlatformManagerCreate () = some 7) ∧
    selectPlatform desired8s table8sent = none := by
  refine ⟨(selectPlatform_fallback_behavior desired8s table8s).2.1 7 rfl,
    ((selectPlatform_fallback_behavior desired8 table8).2.2 entry8a rfl).2.2.2
      (by decide) rfl,
    rfl, rfl, by decide,
    ⟨entry8s3,
      List.mem_cons_of_mem entry8s1
        (List.mem_cons_of_mem entry8s2 (List.mem_cons_self entry8s3 [])),
      exCreate 7, rfl, rfl⟩,
    ((selectPlatform_fallback_behavior desired8s table8sent).2.2 entry8s2 rfl).2.2.2
      (by decide) rfl⟩

/-- C9: the preferred search of `selectPlatform` treats a candidate as a
match exactly when each requested field is the no-preference wildcard or
equal to the candidate's field (`candidateMatches`), and among matches
(provided some match has a non-sentinel score, cf. C8 for the sentinel
fallback) it selects the one with minimum score, ties broken in favor of
the earliest candidate in table order. -/
theorem scanPreferred_selects_min_match {PM : Type}
    (d : PlatformSpecification PM)
    (table : List (ScoredType (PlatformSpecification PM)))
    (h : ∃ e, e ∈ table ∧ candidateMatches d e = true ∧ e.score < UINT16_MAX) :
    ∃ m, scanPreferred d table UINT16_MAX none = some m ∧
      m ∈ table ∧ candidateMatches d m = true ∧
      (∀ e ∈ table, candidateMatches d e = true → m.score ≤ e.score) ∧
      ∃ t1 t2, table = t1 ++ m :: t2 ∧
        ∀ e ∈ t1, candidateMatches d e = true → m.score < e.score := by
  obtain ⟨e, he, hpe, hlt⟩ := h
  cases hlm : loopMin (candidateMatches d) UINT16_MAX table with
  | none =>
    exact absurd (loopMin_none_prop (candidateMatches d) table UINT16_MAX hlm e he hpe)
      (Nat.not_le_of_lt hlt)
  | some m =>
    obtain ⟨hm, hpm, _, hmin, hdec⟩ :=
      loopMin_some_prop (candidateMatches d) table UINT16_MAX m hlm
    exact ⟨m, by rw [scanPreferred_eq_loopMin, hlm], hm, hpm, hmin, hdec⟩

/-- Witness for C9: the duplicate scenario — candidates
(GLFW, VULKAN, score 10) and (GLFW, VULKAN, score 5) requested with
(GLFW, VULKAN) — selects the score-5 candidate. -/
theorem scanPreferred_selects_min_match_witness :
    (∃ e, e ∈ table9 ∧ candidateMatches desired9 e = true ∧ e.score < UINT16_MAX) ∧
    (∃ m, scanPreferred desired9 table9 UINT16_MAX none = some m ∧
      m ∈ table9 ∧ candidateMatches desired9 m = true ∧
      (∀ e ∈ table9, candidateMatches desired9 e = true → m.score ≤ e.score) ∧
      ∃ t1 t2, table9 = t1 ++ m :: t2 ∧
        ∀ e ∈ t1, candidateMatches desired9 e = true → m.score < e.score) ∧
    scanPreferred desired9 table9 UINT16_MAX none = some entry9b := by
  have hexists : ∃ e, e ∈ table9 ∧ candidateMatches desired9 e = true ∧
      e.score < UINT16_MAX :=
    ⟨entry9b, List.mem_cons_of_mem entry9a (List.mem_cons_self entry9b []),
      rfl, by decide⟩
  exact ⟨hexists, scanPreferred_selects_min_match desired9 table9 hexists, rfl⟩

end VKING.EngineConfig
